import Mathlib

/-!
Shallow embedding of the monitoring core of `src/bot.py` (a Telegram bot
that polls Hyperliquid whale positions, a MEXC account, Tether mints and
Twitter feeds): the two position-change detectors, the wall-clock slot
logic of the schedulers, the Tether mint dispatch loop, the subscriber
fan-out loop, and a credential pool modelled from the specification.

Python dictionaries are embedded as association lists with
insert-or-replace semantics; `float` values that only ever hold decimal
quantities are embedded as exact rationals (the literal `0.1` becomes
`1/10`; at every boundary input considered here the float comparison and
the rational comparison agree).  Stateful methods become explicit state
transformers: each takes the mutable state it reads as an argument and
returns the state it leaves behind.
-/

namespace Bot

/-- Association-list membership test, mirroring Python `key in dict`. -/
def containsKey {α : Type} (d : List (String × α)) (k : String) : Bool :=
  d.any (fun kv => kv.1 == k)

/-- Association-list lookup, mirroring Python `dict[key]`. -/
def lookupKey {α : Type} (d : List (String × α)) (k : String) : Option α :=
  (d.find? (fun kv => kv.1 == k)).map (fun kv => kv.2)

/-- Association-list insert-or-replace, mirroring `dict[key] = value`:
an existing key keeps its position and gets the new value, a new key is
appended (Python dicts preserve insertion order). -/
def insertKey {α : Type} (d : List (String × α)) (k : String) (v : α) :
    List (String × α) :=
  if containsKey d k then d.map (fun kv => if kv.1 == k then (k, v) else kv)
  else d ++ [(k, v)]

/-- One raw Hyperliquid position as read by
`WhaleTracker.detect_position_changes` (bot.py:1128-1138): the fields
`p['position']['coin']`, `szi`, `marginUsed`, `entryPx`, with the
`float(...)` string parsing abstracted to the parsed numeric value. -/
structure RawWhalePosition where
  coin : String
  szi : ℚ
  marginUsed : ℚ
  entryPx : ℚ
deriving DecidableEq, Repr

/-- An entry of `new_pos_dict` / `last_positions[address]`
(bot.py:1134-1138). -/
structure WhalePos where
  szi : ℚ
  margin : ℚ
  entry_px : ℚ
deriving DecidableEq, Repr

/-- Per-address snapshot: coin ↦ position record. -/
abbrev WhaleSnapshot := List (String × WhalePos)

/-- The `WhaleTracker.last_positions` store: address ↦ snapshot. -/
abbrev WhaleStore := List (String × WhaleSnapshot)

/-- One emitted whale notification, abstracted to its change kind
(`"open" | "close" | "add" | "reduce"`, matching the `changes` tags of
bot.py:1156,1169,1188,1198) and the coin it concerns; the rendered
message text is irrelevant to the claims. -/
structure WhaleNotif where
  kind : String
  coin : String
deriving DecidableEq, Repr

/-- The `new_pos_dict` construction loop of bot.py:1128-1138. -/
def buildWhaleDict (newPositions : List RawWhalePosition) : WhaleSnapshot :=
  newPositions.foldl
    (fun d p => insertKey d p.coin ⟨p.szi, p.marginUsed, p.entryPx⟩) []

/-- The relative-change test of bot.py:1177 (margins) and bot.py:440
(volumes): `abs(diff / old) > 0.1 if old > 0 else False` — a Python
conditional expression, so the division is only evaluated under the
`old > 0` guard; the float literal `0.1` is the exact rational `1/10`. -/
def relativeChangeExceedsThreshold (oldMag newMag : ℚ) : Bool :=
  if oldMag > 0 then decide (|(newMag - oldMag) / oldMag| > 1 / 10) else false

namespace WhaleTracker

/-- `WhaleTracker.detect_position_changes` (bot.py:1123-1203) as a state
transformer on the `last_positions` store: returns the store left behind
by the call (the method itself writes `self.last_positions[address]`, at
bot.py:1141 on the baseline path and bot.py:1201 otherwise), the
notification list and the `changes` dict.  The set-intersection
iteration order of bot.py:1172 (unspecified in Python) is taken in
fresh-dict order; the claims only depend on membership and counts. -/
def detect_position_changes (lastPositions : WhaleStore) (address : String)
    (newPositions : List RawWhalePosition) :
    WhaleStore × List WhaleNotif × List (String × String) :=
  let newPosDict := buildWhaleDict newPositions
  match lookupKey lastPositions address with
  | none => (insertKey lastPositions address newPosDict, [], [])
  | some oldPosDict =>
    let opens := newPosDict.filter (fun kv => !containsKey oldPosDict kv.1)
    let closes := oldPosDict.filter (fun kv => !containsKey newPosDict kv.1)
    let adjusts :=
      (newPosDict.filter (fun kv => containsKey oldPosDict kv.1)).filterMap
        (fun kv =>
          match lookupKey oldPosDict kv.1 with
          | none => none
          | some oldData =>
            if relativeChangeExceedsThreshold oldData.margin kv.2.margin then
              some (kv.1, oldData.margin, kv.2.margin)
            else none)
    let notifs :=
      opens.map (fun kv => WhaleNotif.mk "open" kv.1)
        ++ closes.map (fun kv => WhaleNotif.mk "close" kv.1)
        ++ adjusts.map (fun t =>
             WhaleNotif.mk (if t.2.2 - t.2.1 > 0 then "add" else "reduce") t.1)
    let changes :=
      opens.map (fun kv => (kv.1, "open"))
        ++ closes.map (fun kv => (kv.1, "close"))
        ++ adjusts.map (fun t =>
             (t.1, if t.2.2 - t.2.1 > 0 then "add" else "reduce"))
    (insertKey lastPositions address newPosDict, notifs, changes)

end WhaleTracker

/-- One raw MEXC position as read by
`MEXCTracker.detect_position_changes` (bot.py:373-385). -/
structure RawMexcPosition where
  symbol : String
  positionType : Int
  holdVol : ℚ
  openAvgPrice : ℚ
deriving DecidableEq, Repr

/-- An entry of the MEXC `new_pos_dict` (bot.py:381-385). -/
structure MexcPos where
  hold_vol : ℚ
  open_avg_price : ℚ
  position_type : Int
deriving DecidableEq, Repr

/-- The MEXC snapshot: `"{symbol}_{positionType}"` key ↦ record. -/
abbrev MexcSnapshot := List (String × MexcPos)

/-- One record appended to `trades_history` by `MEXCTracker.record_trade`
(bot.py:265-270); the wall-clock timestamp it also stamps is abstracted
away, and the accompanying file write (`save_trades_history`) is the
persistence of this in-memory list. -/
structure MexcTrade where
  symbol : String
  action : String
  direction : String
  volume : ℚ
  price : ℚ
  pnl : ℚ
deriving DecidableEq, Repr

/-- One emitted MEXC notification, abstracted as for the whale tracker. -/
structure MexcNotif where
  kind : String
  symbol : String
deriving DecidableEq, Repr

/-- The key construction `f"{symbol}_{position_type}"` of bot.py:380. -/
def mexcKey (symbol : String) (positionType : Int) : String :=
  symbol ++ "_" ++ toString positionType

/-- Python `key.rsplit('_', 1)[0]` on the character list: everything
before the last underscore, or the whole string if none. -/
def rsplitHead : List Char → List Char
  | [] => []
  | c :: rest =>
    if rest.contains '_' then c :: rsplitHead rest
    else if c = '_' then []
    else c :: rest

/-- `key.rsplit('_', 1)[0]` (bot.py:389 etc.). -/
def keySymbol (key : String) : String := String.mk (rsplitHead key.data)

/-- `'long' if position_type == 1 else 'short'` (bot.py:403 etc.). -/
def mexcDirection (positionType : Int) : String :=
  if positionType = 1 then "long" else "short"

/-- The MEXC `new_pos_dict` construction loop of bot.py:373-385. -/
def buildMexcDict (newPositions : List RawMexcPosition) : MexcSnapshot :=
  newPositions.foldl
    (fun d p =>
      insertKey d (mexcKey p.symbol p.positionType)
        ⟨p.holdVol, p.openAvgPrice, p.positionType⟩) []

namespace MEXCTracker

/-- `MEXCTracker.detect_position_changes` (bot.py:368-485) as a state
transformer on `trades_history` (which the method grows through
`record_trade` for every emitted change): returns the trade history left
behind, the notification list, and `new_pos_dict` (the method returns
the fresh dict and, unlike the whale variant, does not write the
snapshot itself — its caller commits it, bot.py:2362). -/
def detect_position_changes (tradesHistory : List MexcTrade)
    (oldPositions : MexcSnapshot) (newPositions : List RawMexcPosition) :
    List MexcTrade × List MexcNotif × MexcSnapshot :=
  let newPosDict := buildMexcDict newPositions
  let opens := newPosDict.filter (fun kv => !containsKey oldPositions kv.1)
  let closes := oldPositions.filter (fun kv => !containsKey newPosDict kv.1)
  let adjusts :=
    (newPosDict.filter (fun kv => containsKey oldPositions kv.1)).filterMap
      (fun kv =>
        match lookupKey oldPositions kv.1 with
        | none => none
        | some oldData =>
          if relativeChangeExceedsThreshold oldData.hold_vol kv.2.hold_vol then
            some (kv.1, oldData.hold_vol, kv.2)
          else none)
  let notifs :=
    opens.map (fun kv => MexcNotif.mk "open" (keySymbol kv.1))
      ++ closes.map (fun kv => MexcNotif.mk "close" (keySymbol kv.1))
      ++ adjusts.map (fun t =>
           MexcNotif.mk (if t.2.2.hold_vol - t.2.1 > 0 then "add" else "reduce")
             (keySymbol t.1))
  let newTrades :=
    opens.map (fun kv =>
        MexcTrade.mk (keySymbol kv.1) "open" (mexcDirection kv.2.position_type)
          kv.2.hold_vol kv.2.open_avg_price 0)
      ++ closes.map (fun kv =>
          MexcTrade.mk (keySymbol kv.1) "close" (mexcDirection kv.2.position_type)
            kv.2.hold_vol kv.2.open_avg_price 0)
      ++ adjusts.map (fun t =>
          let d := t.2.2.hold_vol - t.2.1
          if d > 0 then
            MexcTrade.mk (keySymbol t.1) "add" (mexcDirection t.2.2.position_type)
              d t.2.2.open_avg_price 0
          else
            MexcTrade.mk (keySymbol t.1) "reduce" (mexcDirection t.2.2.position_type)
              |d| t.2.2.open_avg_price 0)
  (tradesHistory ++ newTrades, notifs, newPosDict)

end MEXCTracker

/-- The per-whale body of `auto_update` (bot.py:2221-2230): an empty
fetched position list — which is also exactly what a failed fetch yields,
since `WhaleTracker.fetch_positions` (bot.py:1058-1074) swallows every
error and returns `[]` — skips the entity (`continue`) before the
detector ever runs. -/
def auto_update_entity (lastPositions : WhaleStore) (address : String)
    (fetched : List RawWhalePosition) : WhaleStore × List WhaleNotif :=
  if fetched.isEmpty then (lastPositions, [])
  else
    let r := WhaleTracker.detect_position_changes lastPositions address fetched
    (r.1, r.2.1)

/-- The snapshot/diff core of `mexc_auto_update` (bot.py:2333-2362): a
failed fetch yields `[]` (`MEXCTracker.fetch_positions`, bot.py:114-155,
swallows every error); the cycle returns early only when both the fetch
result and the stored `last_mexc_positions` are empty (bot.py:2335),
otherwise it diffs and then commits `new_pos_dict` (bot.py:2362). -/
def mexc_auto_update_cycle (lastMexcPositions : MexcSnapshot)
    (tradesHistory : List MexcTrade) (fetched : List RawMexcPosition) :
    MexcSnapshot × List MexcTrade × List MexcNotif :=
  if fetched.isEmpty && lastMexcPositions.isEmpty then
    (lastMexcPositions, tradesHistory, [])
  else
    let r := MEXCTracker.detect_position_changes tradesHistory lastMexcPositions fetched
    (r.2.2, r.1, r.2.1)

/-- Python `f"{hour:02d}"`. -/
def pad2 (n : Nat) : String :=
  if n < 10 then "0" ++ toString n else toString n

/-- The `current_time_mark` computation of bot.py:2198-2202. -/
def timeMark (hour minute : Nat) : String :=
  if minute ≥ 30 then pad2 hour ++ ":30" else pad2 hour ++ ":00"

/-- The `in_push_window` test of bot.py:2205. -/
def inPushWindow (minute : Nat) : Bool :=
  (decide (0 ≤ minute) && decide (minute ≤ 4)) ||
    (decide (30 ≤ minute) && decide (minute ≤ 34))

/-- The `should_push` test of bot.py:2206. -/
def shouldPush (lastScheduledPushTime : String) (hour minute : Nat) : Bool :=
  inPushWindow minute && (lastScheduledPushTime != timeMark hour minute)

/-- One tick of the slot logic of `auto_update` (bot.py:2194-2219):
computes `should_push` and, when it fires, records the mark in
`last_scheduled_push_time`. -/
def slotStep (lastScheduledPushTime : String) (hour minute : Nat) : String × Bool :=
  if shouldPush lastScheduledPushTime hour minute then (timeMark hour minute, true)
  else (lastScheduledPushTime, false)

/-- Iterated slot ticks: the cadence fires once per listed minute
(`job_queue.run_repeating(auto_update, interval=60, ...)`, bot.py:2568);
returns the final `last_scheduled_push_time` and the minutes at which a
slot push fired. -/
def slotRun (lastScheduledPushTime : String) (hour : Nat) (minutes : List Nat) :
    String × List Nat :=
  minutes.foldl
    (fun st m =>
      if shouldPush st.1 hour m then (timeMark hour m, st.2 ++ [m]) else st)
    (lastScheduledPushTime, [])

/-- The sixty minutes of one wall-clock hour, one cadence tick each. -/
def minutesOfHour : List Nat :=
  [0, 1, 2, 3, 4, 5, 6, 7, 8, 9, 10, 11, 12, 13, 14, 15, 16, 17, 18, 19,
   20, 21, 22, 23, 24, 25, 26, 27, 28, 29, 30, 31, 32, 33, 34, 35, 36, 37,
   38, 39, 40, 41, 42, 43, 44, 45, 46, 47, 48, 49, 50, 51, 52, 53, 54, 55,
   56, 57, 58, 59]

/-- One on-chain Tether mint transaction, abstracted to the hash used by
the dedup comparison of bot.py:2402-2404. -/
structure MintTx where
  hash : String
deriving DecidableEq, Repr

/-- The notification loop of `tether_update` (bot.py:2400-2418): for each
fetched mint whose (truthy) hash differs from the running
`tether_monitor.last_tx_hash`, an event is emitted and the stored hash is
updated to that mint's hash; returns the final stored hash and the
emitted mints in order. -/
def tether_update_loop (lastTxHash : String) (mints : List MintTx) :
    String × List MintTx :=
  mints.foldl
    (fun st m =>
      if (m.hash != "") && (m.hash != st.1) then (m.hash, st.2 ++ [m]) else st)
    (lastTxHash, [])

/-- The fan-out loop of `auto_update` / `mexc_auto_update`
(bot.py:2238-2249, 2347-2358): one send per subscriber, each wrapped in
its own try/except, so a failing send is recorded and the loop moves on.
`deliveryFails` abstracts which sends raise; returns the successfully
delivered recipients and the failed ones, in iteration order. -/
def dispatchToSubscribers (subscribers : List Int) (deliveryFails : Int → Bool) :
    List Int × List Int :=
  subscribers.foldl
    (fun st c =>
      if deliveryFails c then (st.1, st.2 ++ [c]) else (st.1 ++ [c], st.2))
    ([], [])

/-- Modelled from the spec: no credential pool exists in `src/bot.py`
(each upstream uses one static token, e.g. `TWITTER_BEARER_TOKEN`); a
credential of §4.3 carries its value and a `failed` flag. -/
structure Credential where
  value : String
  failed : Bool
deriving DecidableEq, Repr

/-- Modelled from the spec: §4.3 — an ordered sequence of credentials
plus `currentIndex` and `lastResetAt` (seconds). -/
structure CredentialPool where
  creds : List Credential
  currentIndex : Nat
  lastResetAt : Nat
deriving DecidableEq, Repr

/-- Modelled from the spec: the scan of `GetUsable` — start at `start`,
move forward wrapping modulo the pool size, return the first credential
whose `failed` flag is false; the fuel bounds the scan to one full
cycle. -/
def scanUsable (creds : List Credential) (start : Nat) : Nat → Option Credential
  | 0 => none
  | fuel + 1 =>
    match creds.get? (start % creds.length) with
    | none => none
    | some c => if c.failed then scanUsable creds (start + 1) fuel else some c

/-- Modelled from the spec: `GetUsable(pool)` — scan from `currentIndex`,
wrapping once; absent when every credential is failed. -/
def getUsable (pool : CredentialPool) : Option Credential :=
  scanUsable pool.creds pool.currentIndex pool.creds.length

/-- Modelled from the spec: `MaybeReset(pool, now)` clears all `failed`
flags and updates `lastResetAt` when `now - lastResetAt ≥ 24h`
(86400 s). -/
def maybeReset (pool : CredentialPool) (now : Nat) : CredentialPool :=
  if now - pool.lastResetAt ≥ 86400 then
    { pool with
        creds := pool.creds.map (fun c => { c with failed := false }),
        lastResetAt := now }
  else pool

end Bot

namespace Bot

/-! ## Helper lemmas -/

/-- Characterization of the whale detector on a store holding one address
with one coin, diffed against one fresh position for the same coin. -/
theorem whale_single (addr coin : String) (oldP : WhalePos) (szi newM px : ℚ) :
    WhaleTracker.detect_position_changes [(addr, [(coin, oldP)])] addr
      [⟨coin, szi, newM, px⟩]
    = ([(addr, [(coin, ⟨szi, newM, px⟩)])],
       (if relativeChangeExceedsThreshold oldP.margin newM then
          [⟨(if newM - oldP.margin > 0 then "add" else "reduce"), coin⟩]
        else []),
       (if relativeChangeExceedsThreshold oldP.margin newM then
          [(coin, (if newM - oldP.margin > 0 then "add" else "reduce"))]
        else [])) := by
  have hl : lookupKey [(addr, [(coin, oldP)])] addr = some [(coin, oldP)] := by
    simp [lookupKey]
  simp only [WhaleTracker.detect_position_changes, hl]
  simp [buildWhaleDict, insertKey, containsKey, lookupKey]
  split <;> simp_all [List.filterMap]

/-- Under a positive prior magnitude the threshold test is the strict
rational comparison. -/
theorem relThreshold_iff (oldMag newMag : ℚ) (h : oldMag > 0) :
    relativeChangeExceedsThreshold oldMag newMag = true ↔
      |(newMag - oldMag) / oldMag| > 1 / 10 := by
  simp [relativeChangeExceedsThreshold, h]

/-- Contrapositive form of `relThreshold_iff`. -/
theorem relThreshold_false (oldMag newMag : ℚ) (h : oldMag > 0)
    (hle : ¬ |(newMag - oldMag) / oldMag| > 1 / 10) :
    relativeChangeExceedsThreshold oldMag newMag = false := by
  cases hb : relativeChangeExceedsThreshold oldMag newMag
  · rfl
  · exact absurd ((relThreshold_iff oldMag newMag h).mp hb) hle

/-- Notifications of the MEXC detector on a single common key. -/
theorem mexc_single_notifs (trades : List MexcTrade) (sym : String) (pt : Int)
    (oldPos : MexcPos) (newV price : ℚ) :
    (MEXCTracker.detect_position_changes trades [(mexcKey sym pt, oldPos)]
        [⟨sym, pt, newV, price⟩]).2.1
    = if relativeChangeExceedsThreshold oldPos.hold_vol newV then
        [MexcNotif.mk (if newV - oldPos.hold_vol > 0 then "add" else "reduce")
          (keySymbol (mexcKey sym pt))]
      else [] := by
  by_cases hth : relativeChangeExceedsThreshold oldPos.hold_vol newV = true
  · simp [MEXCTracker.detect_position_changes, buildMexcDict, insertKey,
      containsKey, lookupKey, List.filterMap, hth]
  · simp [MEXCTracker.detect_position_changes, buildMexcDict, insertKey,
      containsKey, lookupKey, List.filterMap, hth]

/-- Appending a distinct three-character suffix distinguishes strings. -/
theorem string_append_suffix_ne (s : String) : s ++ ":00" ≠ s ++ ":30" := by
  intro he
  have hd : (s ++ ":00").data = (s ++ ":30").data := by rw [he]
  simp only [String.data_append] at hd
  have := List.append_cancel_left hd
  simp at this

/-- The top-of-hour mark differs from the bottom-of-hour mark. -/
theorem timeMark_zero_ne_thirty (h : Nat) : timeMark h 0 ≠ timeMark h 30 := by
  simp only [timeMark]
  norm_num
  exact string_append_suffix_ne (pad2 h)

/-- A full hour of minute ticks fires the slot push exactly at minutes 0
and 30, provided the stored mark does not already equal this hour's
top-of-hour mark. -/
theorem slotRun_hour (h : Nat) (l : String) (h1 : l ≠ timeMark h 0) :
    slotRun l h minutesOfHour = (timeMark h 30, [0, 30]) := by
  have hne : timeMark h 0 ≠ timeMark h 30 := timeMark_zero_ne_thirty h
  have e1 : timeMark h 1 = timeMark h 0 := by simp [timeMark]
  have e2 : timeMark h 2 = timeMark h 0 := by simp [timeMark]
  have e3 : timeMark h 3 = timeMark h 0 := by simp [timeMark]
  have e4 : timeMark h 4 = timeMark h 0 := by simp [timeMark]
  have f1 : timeMark h 31 = timeMark h 30 := by simp [timeMark]
  have f2 : timeMark h 32 = timeMark h 30 := by simp [timeMark]
  have f3 : timeMark h 33 = timeMark h 30 := by simp [timeMark]
  have f4 : timeMark h 34 = timeMark h 30 := by simp [timeMark]
  simp [slotRun, minutesOfHour, shouldPush, inPushWindow,
    e1, e2, e3, e4, f1, f2, f3, f4, bne_iff_ne, h1, hne]

/-- The dispatch fold splits the subscribers into delivered and failed. -/
theorem dispatch_foldl (deliveryFails : Int → Bool) :
    ∀ (subs acc1 acc2 : List Int),
      subs.foldl
        (fun st c =>
          if deliveryFails c then (st.1, st.2 ++ [c]) else (st.1 ++ [c], st.2))
        (acc1, acc2)
      = (acc1 ++ subs.filter (fun c => !deliveryFails c),
         acc2 ++ subs.filter deliveryFails)
  | [], acc1, acc2 => by simp
  | c :: cs, acc1, acc2 => by
    by_cases h : deliveryFails c <;>
      simp [h, dispatch_foldl deliveryFails cs, List.filter_cons]

/-- A scan over an all-failed credential list yields nothing. -/
theorem scanUsable_all_failed (creds : List Credential)
    (hall : ∀ c ∈ creds, c.failed = true) :
    ∀ (fuel start : Nat), scanUsable creds start fuel = none := by
  intro fuel
  induction fuel with
  | zero => intro start; rfl
  | succ n ih =>
    intro start
    simp only [scanUsable]
    cases hg : creds.get? (start % creds.length) with
    | none => rfl
    | some c =>
      have hc : c ∈ creds := List.get?_mem hg
      simp [hall c hc, ih]

/-- The scan returns the credential at the starting slot when it is not
failed. -/
theorem scanUsable_first_ok (creds : List Credential) (start : Nat)
    (c : Credential) (hget : creds.get? (start % creds.length) = some c)
    (hc : c.failed = false) :
    ∀ fuel, fuel ≠ 0 → scanUsable creds start fuel = some c := by
  intro fuel hf
  cases fuel with
  | zero => exact absurd rfl hf
  | succ k =>
    simp only [scanUsable]
    rw [hget]
    simp [hc]

end Bot

namespace Bot

/-! ## Claim theorems -/

/-- Claim C1, counterexample: at `prior margin = 100, new margin = 110`
the relative change is exactly 10%, so the claim ("emit exactly when the
relative change is at least 0.10, inclusive; prior=100, new=110 must
emit") requires an event — but the detector's strict `> 0.1` comparison
(bot.py:1177) emits nothing. -/
theorem C1_counterexample :
    (|((110 : ℚ) - 100)| / |(100 : ℚ)| ≥ 1 / 10) ∧
    (WhaleTracker.detect_position_changes [("0xa", [("BTC", ⟨1, 100, 10⟩)])]
      "0xa" [⟨"BTC", 1, 110, 10⟩]).2.1 = [] := by
  constructor
  · norm_num
  · rw [whale_single]
    norm_num [relativeChangeExceedsThreshold, abs_le]

/-- Claim C1 as amended: for a position sub-key present in both snapshots
with positive prior magnitude, both detectors emit an Increased/Decreased
event exactly when the relative magnitude change is STRICTLY greater than
0.10 (so prior=100, new=110 does not emit; prior=100, new=111 does). -/
theorem C1_threshold_strict (addr coin sym : String) (pt : Int)
    (szi oldM px szi2 newM px2 oldV price1 newV price2 : ℚ)
    (trades : List MexcTrade)
    (h1 : oldM > 0) (h2 : oldV > 0) :
    (((WhaleTracker.detect_position_changes [(addr, [(coin, ⟨szi, oldM, px⟩)])]
        addr [⟨coin, szi2, newM, px2⟩]).2.1 ≠ []) ↔
      |(newM - oldM) / oldM| > 1 / 10)
    ∧ (((MEXCTracker.detect_position_changes trades
        [(mexcKey sym pt, ⟨oldV, price1, pt⟩)] [⟨sym, pt, newV, price2⟩]).2.1 ≠ []) ↔
      |(newV - oldV) / oldV| > 1 / 10) := by
  constructor
  · rw [whale_single]
    by_cases hgt : |(newM - oldM) / oldM| > 1 / 10
    · simp only [(relThreshold_iff oldM newM h1).mpr hgt, if_true]
      simpa using hgt
    · simp only [relThreshold_false oldM newM h1 hgt, Bool.false_eq_true,
        if_false, ne_eq, not_true_eq_false, false_iff]
      exact hgt
  · rw [mexc_single_notifs]
    by_cases hgt : |(newV - oldV) / oldV| > 1 / 10
    · simp only [(relThreshold_iff oldV newV h2).mpr hgt, if_true]
      simpa using hgt
    · simp only [relThreshold_false oldV newV h2 hgt, Bool.false_eq_true,
        if_false, ne_eq, not_true_eq_false, false_iff]
      exact hgt

/-- Witness for C1_threshold_strict at prior=100, new=111 (11% > 10%,
so an event is emitted in both detectors). -/
theorem C1_threshold_strict_witness :
    (0 : ℚ) < 100 ∧
    (((WhaleTracker.detect_position_changes [("0xa", [("BTC", ⟨1, 100, 10⟩)])]
        "0xa" [⟨"BTC", 1, 111, 10⟩]).2.1 ≠ []) ↔
      |((111 : ℚ) - 100) / 100| > 1 / 10)
    ∧ (((MEXCTracker.detect_position_changes []
        [(mexcKey "BTC_USDT" 1, ⟨100, 10, 1⟩)] [⟨"BTC_USDT", 1, 111, 10⟩]).2.1 ≠ []) ↔
      |((111 : ℚ) - 100) / 100| > 1 / 10) :=
  ⟨by norm_num,
   C1_threshold_strict "0xa" "BTC" "BTC_USDT" 1 1 100 10 1 111 10 100 10 111 10 []
     (by norm_num) (by norm_num)⟩

/-- Claim C2 (code bug): with a non-empty stored MEXC snapshot and a
failed fetch (which `MEXCTracker.fetch_positions` surfaces as the empty
list), `mexc_auto_update` does NOT abort: it emits a Closed event for the
previously held position, appends a trade record, and commits the empty
snapshot — the state is mutated and events are emitted on a fetch
error. -/
theorem C2_mexc_fetch_error_effects :
    mexc_auto_update_cycle [("BTC_USDT_1", ⟨1, 50000, 1⟩)] [] []
      = ([], [⟨"BTC_USDT", "close", "long", 1, 50000, 0⟩],
         [⟨"close", "BTC_USDT"⟩]) := by
  decide

/-- Claim C3, counterexample: the MEXC tracker has no "absent" prior
(the global `last_mexc_positions` starts as the empty dict), and its
first-ever diff against that empty prior with a non-empty fresh snapshot
emits an Opened event — the claim says the first diff emits zero events
regardless of the fresh snapshot's contents. -/
theorem C3_counterexample :
    (MEXCTracker.detect_position_changes [] []
      [⟨"BTC_USDT", 1, 2, 50000⟩]).2.1 ≠ [] := by
  decide

/-- Claim C3 as amended: for the whale tracker, a first-ever diff (the
address is absent from `last_positions`) emits zero events regardless of
the fresh snapshot and commits the fresh snapshot as baseline; for the
MEXC tracker the prior is never absent (it is initialized to the empty
dict), and a diff against the empty prior emits one Opened event per
fresh sub-key. -/
theorem C3_baseline (lastPositions : WhaleStore) (addr : String)
    (ps : List RawWhalePosition) (trades : List MexcTrade)
    (qs : List RawMexcPosition)
    (hfirst : lookupKey lastPositions addr = none) :
    WhaleTracker.detect_position_changes lastPositions addr ps
      = (insertKey lastPositions addr (buildWhaleDict ps), [], [])
    ∧ (MEXCTracker.detect_position_changes trades [] qs).2.1.length
        = (buildMexcDict qs).length
    ∧ ∀ n ∈ (MEXCTracker.detect_position_changes trades [] qs).2.1,
        n.kind = "open" := by
  refine ⟨?_, ?_, ?_⟩
  · simp [WhaleTracker.detect_position_changes, hfirst]
  · simp [MEXCTracker.detect_position_changes, containsKey, List.filter_true]
  · intro n hn
    simp [MEXCTracker.detect_position_changes, containsKey,
      List.filter_true] at hn
    obtain ⟨kv, hkv, rfl⟩ := hn
    rfl

/-- Witness for C3_baseline on an empty whale store. -/
theorem C3_baseline_witness :
    lookupKey ([] : WhaleStore) "0xa" = none ∧
    (WhaleTracker.detect_position_changes [] "0xa" [⟨"BTC", 1, 5, 10⟩]
      = (insertKey [] "0xa" (buildWhaleDict [⟨"BTC", 1, 5, 10⟩]), [], [])
    ∧ (MEXCTracker.detect_position_changes [] []
        [⟨"BTC_USDT", 1, 2, 50000⟩]).2.1.length
        = (buildMexcDict [⟨"BTC_USDT", 1, 2, 50000⟩]).length
    ∧ ∀ n ∈ (MEXCTracker.detect_position_changes [] []
        [⟨"BTC_USDT", 1, 2, 50000⟩]).2.1, n.kind = "open") :=
  ⟨rfl, C3_baseline [] "0xa" [⟨"BTC", 1, 5, 10⟩] []
    [⟨"BTC_USDT", 1, 2, 50000⟩] rfl⟩

/-- Claim C4, counterexample: the diff is not side-effect-free — the
whale detector writes the snapshot store on every call (here a new
baseline appears in the store), and the MEXC detector appends to the
persisted trade history. -/
theorem C4_counterexample :
    (WhaleTracker.detect_position_changes [] "0xa" [⟨"BTC", 1, 5, 10⟩]).1 ≠ []
    ∧ (MEXCTracker.detect_position_changes [] []
        [⟨"BTC_USDT", 1, 2, 50000⟩]).1 ≠ [] := by
  constructor <;> decide

/-- Claim C4 as amended: the whale detector itself commits the fresh
snapshot into `last_positions` on every call (so the snapshot commit is
not a separate caller step there), while the MEXC detector leaves the
snapshot commit to its caller but appends one trade-history record per
emitted event. -/
theorem C4_detector_effects (lastPositions : WhaleStore) (addr : String)
    (ps : List RawWhalePosition) (trades : List MexcTrade)
    (old : MexcSnapshot) (qs : List RawMexcPosition) :
    (WhaleTracker.detect_position_changes lastPositions addr ps).1
      = insertKey lastPositions addr (buildWhaleDict ps)
    ∧ (MEXCTracker.detect_position_changes trades old qs).1
        = trades ++ (MEXCTracker.detect_position_changes [] old qs).1
    ∧ ((MEXCTracker.detect_position_changes [] old qs).1).length
        = ((MEXCTracker.detect_position_changes trades old qs).2.1).length := by
  refine ⟨?_, ?_, ?_⟩
  · cases h : lookupKey lastPositions addr <;>
      simp [WhaleTracker.detect_position_changes, h]
  · simp [MEXCTracker.detect_position_changes]
  · simp [MEXCTracker.detect_position_changes]

/-- Claim C5: over an hour of minute ticks, the slot push fires exactly
once inside the [0,4] window and once more inside the [30,34] window
(provided the stored label does not already equal this hour's first
label), and a tick fires precisely when the current minute is inside a
push window and the computed label differs from the last fired label. -/
theorem C5_slot_dedup (h : Nat) (l : String) (h1 : l ≠ timeMark h 0) :
    (slotRun l h minutesOfHour).2 = [0, 30]
    ∧ (slotRun l h minutesOfHour).1 = timeMark h 30
    ∧ ∀ (l2 : String) (m : Nat),
        (slotStep l2 h m).2 = true ↔
          (inPushWindow m = true ∧ l2 ≠ timeMark h m) := by
  refine ⟨by rw [slotRun_hour h l h1], by rw [slotRun_hour h l h1], ?_⟩
  intro l2 m
  by_cases hc : shouldPush l2 h m = true
  · simp only [slotStep, hc, if_true]
    simpa [shouldPush, bne_iff_ne] using hc
  · simp only [slotStep, hc, if_false]
    simp only [Bool.not_eq_true] at hc
    simp [hc]
    intro hw
    have := hc
    simp [shouldPush, hw, bne_iff_ne] at this
    simp [this]

/-- Witness for C5_slot_dedup at hour 5 with the previous hour's label
stored. -/
theorem C5_slot_dedup_witness :
    ("04:30" : String) ≠ timeMark 5 0 ∧
    (slotRun "04:30" 5 minutesOfHour).2 = [0, 30] :=
  ⟨by decide, (C5_slot_dedup 5 "04:30" (by decide)).1⟩

/-- Claim C6, counterexample: a cycle whose fetch returns two mints with
fresh hashes emits two events, not "exactly one NewItem" — the loop of
`tether_update` notifies once per fetched transaction whose hash differs
from the running stored id. -/
theorem C6_counterexample :
    (tether_update_loop "" [MintTx.mk "a", MintTx.mk "b"]).2.length ≠ 1
    ∧ (MintTx.mk "b").hash ≠ "" := by
  decide

/-- Claim C6 as amended: per fetched mint the loop emits one event and
commits that mint's hash exactly when the hash is non-empty and differs
from the id stored at that point; in particular, when the fetch yields a
single transaction, exactly one NewItem is emitted iff its hash is fresh,
and the stored id is then updated to it (otherwise it is unchanged, so a
re-fetched same id is never re-announced). -/
theorem C6_single_mint (lastTxHash : String) (m : MintTx) :
    tether_update_loop lastTxHash [m]
      = if m.hash ≠ "" ∧ m.hash ≠ lastTxHash then (m.hash, [m])
        else (lastTxHash, []) := by
  by_cases h1 : m.hash = ""
  · simp [tether_update_loop, h1]
  · by_cases h2 : m.hash = lastTxHash
    · simp [tether_update_loop, h1, h2]
    · simp [tether_update_loop, h1, h2, bne_iff_ne]

/-- Claim C7: a sub-key present in both snapshots whose prior magnitude
is 0 yields no Increased/Decreased event in either detector, and the
guarded threshold test is false (the division sits under the `old > 0`
guard of the Python conditional expression, so it is never evaluated
for a non-positive prior). -/
theorem C7_zero_prior (addr coin sym : String) (pt : Int)
    (szi px szi2 newM px2 price1 newV price2 : ℚ) (trades : List MexcTrade) :
    relativeChangeExceedsThreshold 0 newM = false
    ∧ (WhaleTracker.detect_position_changes [(addr, [(coin, ⟨szi, 0, px⟩)])]
        addr [⟨coin, szi2, newM, px2⟩]).2.1 = []
    ∧ (MEXCTracker.detect_position_changes trades
        [(mexcKey sym pt, ⟨0, price1, pt⟩)] [⟨sym, pt, newV, price2⟩]).2.1 = [] := by
  refine ⟨by simp [relativeChangeExceedsThreshold], ?_, ?_⟩
  · rw [whale_single]
    simp [relativeChangeExceedsThreshold]
  · rw [mexc_single_notifs]
    simp [relativeChangeExceedsThreshold]

/-- Claim C8 (credential pool modelled from the spec, §4.3, absent from
the source): a fully failed pool yields no usable credential; once 24h
have elapsed, `maybeReset` clears every failed flag and a usable
credential is returned again. -/
theorem C8_pool_exhaustion_recovery (pool : CredentialPool) (now : Nat)
    (hall : ∀ c ∈ pool.creds, c.failed = true)
    (hne : pool.creds ≠ [])
    (helapsed : now - pool.lastResetAt ≥ 86400) :
    getUsable pool = none
    ∧ (∀ c ∈ (maybeReset pool now).creds, c.failed = false)
    ∧ ∃ c, getUsable (maybeReset pool now) = some c ∧ c.failed = false := by
  refine ⟨scanUsable_all_failed _ hall _ _, ?_, ?_⟩
  · intro c hc
    simp [maybeReset, helapsed] at hc
    obtain ⟨a, ha, rfl⟩ := hc
    rfl
  · have hcreds : (maybeReset pool now).creds
        = pool.creds.map (fun c => { c with failed := false }) := by
      simp [maybeReset, helapsed]
    have hidx : (maybeReset pool now).currentIndex = pool.currentIndex := by
      simp [maybeReset, helapsed]
    set creds2 := pool.creds.map (fun c => { c with failed := false }) with hc2
    have hpos : 0 < creds2.length := by
      simp only [hc2, List.length_map]
      exact List.length_pos.mpr hne
    have hmod : pool.currentIndex % creds2.length < creds2.length :=
      Nat.mod_lt _ hpos
    obtain ⟨c, hgetc⟩ : ∃ c, creds2.get? (pool.currentIndex % creds2.length)
        = some c := by
      rw [List.get?_eq_get hmod]
      exact ⟨_, rfl⟩
    have hcfail : c.failed = false := by
      have hmem : c ∈ creds2 := List.get?_mem hgetc
      rw [hc2] at hmem
      obtain ⟨a, ha, he⟩ := List.mem_map.mp hmem
      rw [← he]
    refine ⟨c, ?_, hcfail⟩
    have hgu : getUsable (maybeReset pool now)
        = scanUsable creds2 pool.currentIndex creds2.length := by
      simp [getUsable, hcreds, hidx, hc2]
    rw [hgu]
    exact scanUsable_first_ok creds2 pool.currentIndex c hgetc hcfail
      creds2.length (Nat.pos_iff_ne_zero.mp hpos)

/-- Witness for C8_pool_exhaustion_recovery: a pool of two failed
credentials, reset 24h later. -/
theorem C8_pool_exhaustion_recovery_witness :
    (∀ c ∈ (CredentialPool.mk [⟨"k1", true⟩, ⟨"k2", true⟩] 0 0).creds,
        c.failed = true) ∧
    (CredentialPool.mk [⟨"k1", true⟩, ⟨"k2", true⟩] 0 0).creds ≠ [] ∧
    (86400 : Nat) - (CredentialPool.mk [⟨"k1", true⟩, ⟨"k2", true⟩] 0 0).lastResetAt
      ≥ 86400 ∧
    (getUsable (CredentialPool.mk [⟨"k1", true⟩, ⟨"k2", true⟩] 0 0) = none
    ∧ (∀ c ∈ (maybeReset (CredentialPool.mk [⟨"k1", true⟩, ⟨"k2", true⟩] 0 0)
        86400).creds, c.failed = false)
    ∧ ∃ c, getUsable (maybeReset
        (CredentialPool.mk [⟨"k1", true⟩, ⟨"k2", true⟩] 0 0) 86400) = some c
        ∧ c.failed = false) :=
  ⟨by decide, by decide, by decide,
   C8_pool_exhaustion_recovery (CredentialPool.mk [⟨"k1", true⟩, ⟨"k2", true⟩] 0 0)
     86400 (by decide) (by decide) (by decide)⟩

/-- Claim C9: dispatch attempts every subscriber independently — the
delivered list is exactly the subscribers whose send does not fail (in
order), the failed list exactly the ones whose send fails, and any
subscriber appearing once whose send succeeds is delivered to exactly
once, regardless of failures among the others. -/
theorem C9_dispatch_isolation (subscribers : List Int)
    (deliveryFails : Int → Bool) :
    (dispatchToSubscribers subscribers deliveryFails).1
      = subscribers.filter (fun c => !deliveryFails c)
    ∧ (dispatchToSubscribers subscribers deliveryFails).2
      = subscribers.filter deliveryFails
    ∧ ∀ s : Int, deliveryFails s = false → subscribers.count s = 1 →
        (dispatchToSubscribers subscribers deliveryFails).1.count s = 1 := by
  have h := dispatch_foldl deliveryFails subscribers [] []
  refine ⟨by simp [dispatchToSubscribers, h],
    by simp [dispatchToSubscribers, h], ?_⟩
  intro s hf hc
  simp only [dispatchToSubscribers, h, List.nil_append]
  rw [List.count_filter (by simp [hf])]
  exact hc

/-- Witness for C9_dispatch_isolation: three subscribers, delivery to
subscriber 2 fails, subscribers 1 and 3 each still receive exactly
once. -/
theorem C9_dispatch_isolation_witness :
    ((fun c : Int => c == 2) 1 = false) ∧
    List.count (1 : Int) [1, 2, 3] = 1 ∧
    (dispatchToSubscribers [1, 2, 3] (fun c => c == 2)).1.count 1 = 1 ∧
    (dispatchToSubscribers [1, 2, 3] (fun c => c == 2)).1.count 3 = 1 :=
  ⟨by decide, by decide,
   (C9_dispatch_isolation [1, 2, 3] (fun c => c == 2)).2.2 1 (by decide) (by decide),
   (C9_dispatch_isolation [1, 2, 3] (fun c => c == 2)).2.2 3 (by decide) (by decide)⟩

/-- Claim C10: when the stored prior snapshot for a whale is non-empty
and the fresh fetch comes back empty, the per-entity cycle body skips the
entity: no events (in particular no Closed events) and the store is left
unchanged. -/
theorem C10_empty_fetch_skip (lastPositions : WhaleStore) (addr : String)
    (snap : WhaleSnapshot)
    (hprior : lookupKey lastPositions addr = some snap)
    (hne : snap ≠ []) :
    auto_update_entity lastPositions addr [] = (lastPositions, []) := by
  simp [auto_update_entity]

/-- Witness for C10_empty_fetch_skip on a store holding one open
position. -/
theorem C10_empty_fetch_skip_witness :
    lookupKey [("0xa", [("BTC", WhalePos.mk 1 5 10)])] "0xa"
      = some [("BTC", WhalePos.mk 1 5 10)] ∧
    ([("BTC", WhalePos.mk 1 5 10)] : WhaleSnapshot) ≠ [] ∧
    auto_update_entity [("0xa", [("BTC", WhalePos.mk 1 5 10)])] "0xa" []
      = ([("0xa", [("BTC", WhalePos.mk 1 5 10)])], []) :=
  ⟨by decide, by decide,
   C10_empty_fetch_skip [("0xa", [("BTC", WhalePos.mk 1 5 10)])] "0xa"
     [("BTC", WhalePos.mk 1 5 10)] (by decide) (by decide)⟩

end Bot
